import Mathlib

/-!
Verification development for the NASA HWO habitability explorer.

The definitions below are a shallow embedding of the Python sources:
* `backend/app/api/hwo_scoring.py` (column detection, scoring engine, CSV batch pipeline),
* `data_science/algorithms/sephi.py` and `cdhs.py` (habitability composites),
* `backend/app/utils/observability.py` (observability geometry).

Strings are modelled as `List Char` where character-level operations are needed
(Python `str.replace`, substring tests, `set(...)` intersections); numeric values
are embedded as `ℚ` where the Python code performs only field arithmetic and
comparisons, and as `ℝ` for the observability pipeline which uses `log10` and
fractional powers.
-/

set_option maxRecDepth 4000

/-! ### Character-list string helpers (Python `str` operations) -/

/-- Python `s.lower()` on a character list. -/
def lowerL (s : List Char) : List Char := s.map Char.toLower

/-- Python `s.strip()`: drop whitespace from both ends. -/
def stripL (s : List Char) : List Char :=
  ((s.dropWhile Char.isWhitespace).reverse.dropWhile Char.isWhitespace).reverse

/-- Python `h.lower().strip().replace(' ', '_').replace('-', '_')`
(hwo_scoring.py, `detect_columns` header normalisation). -/
def normalizeHeader (h : String) : List Char :=
  (stripL (lowerL h.data)).map (fun c => if c = ' ' then '_' else if c = '-' then '_' else c)

/-- Python `a in b` for strings: `a` occurs as a contiguous substring of `b`. -/
def isSub (a : List Char) : List Char → Bool
  | [] => a.isEmpty
  | c :: bs => a.isPrefixOf (c :: bs) || isSub a bs

/-- Worker for `removeAll`; the fuel argument makes the recursion structural and
is always called with enough fuel (one unit per character of the input). -/
def removeAllGo (needle : List Char) : Nat → List Char → List Char
  | _, [] => []
  | 0, s => s
  | fuel + 1, c :: rest =>
    if needle.isPrefixOf (c :: rest) && !needle.isEmpty then
      removeAllGo needle fuel (List.drop (needle.length - 1) rest)
    else
      c :: removeAllGo needle fuel rest

/-- Python `s.replace(needle, empty)` with the empty string as replacement:
delete every (left-to-right, non-overlapping) occurrence of `needle` in `s`. -/
def removeAll (needle s : List Char) : List Char :=
  removeAllGo needle s.length s

/-- Python `len(set(a) & set(b))`: number of distinct characters common to `a` and `b`. -/
def interCount (a b : List Char) : Nat :=
  ((a.eraseDups).filter (fun c => b.contains c)).length

/-- A similarity score as an exact fraction numerator/denominator pair; every
denominator appearing in the pipeline is positive. -/
def simPair (pn hl : List Char) : Nat × Nat :=
  (interCount pn hl, max pn.length hl.length)

/-- Exact comparison `a.1/a.2 < b.1/b.2` of score fractions by
cross-multiplication (denominators are positive wherever this is used, so this
is exactly the rational comparison performed on floats by `detect_columns`). -/
def scoreLt (a b : Nat × Nat) : Bool :=
  decide (a.1 * b.2 < b.1 * a.2)

/-- A score fraction as a rational number:
`len(set(possible_name) & set(header_lower)) / max(len(possible_name), len(header_lower))`
and the constant confidences 1.0 and 0.8 are all reported through this view. -/
def pairToQ (p : Nat × Nat) : ℚ :=
  (p.1 : ℚ) / (p.2 : ℚ)

/-! ### ColumnDetector (hwo_scoring.py lines 78-249) -/

/-- `ColumnDetector.COLUMN_MAPPINGS`: canonical field name → synonym list,
in Python dict insertion order. -/
def COLUMN_MAPPINGS : List (String × List String) :=
  [ ("name",
      ["name", "planet_name", "pl_name", "target_name", "object_name",
       "identifier", "designation", "common_name", "planet", "target",
       "object", "source_name", "catalogue_name", "exoplanet_name"]),
    ("distance",
      ["distance", "dist", "sy_dist", "distance_pc", "dist_pc",
       "parallax_distance", "stellar_distance", "star_distance",
       "system_distance", "parsecs", "pc", "d", "dist_parsec"]),
    ("star_type",
      ["star_type", "stellar_type", "st_spectype", "spectral_type",
       "spec_type", "stellar_class", "star_class", "classification",
       "sptype", "spectype", "st_type", "host_star_type", "host_type"]),
    ("planet_radius",
      ["planet_radius", "pl_rade", "radius", "pl_radius", "r_planet",
       "planet_r", "radius_earth", "earth_radius", "r_earth", "re",
       "planet_size", "size", "pl_rad", "radius_e"]),
    ("orbital_period",
      ["orbital_period", "period", "pl_orbper", "orbit_period",
       "period_days", "orbital_period_days", "pl_period", "p",
       "orbit_p", "period_d", "days", "pl_orbperdur1"]),
    ("stellar_mass",
      ["stellar_mass", "star_mass", "st_mass", "host_mass",
       "host_star_mass", "m_star", "mass_star", "stellar_m",
       "st_m", "ms", "mass_stellar", "host_m"]),
    ("planet_mass",
      ["planet_mass", "pl_masse", "mass", "pl_mass", "m_planet",
       "planet_m", "mass_earth", "earth_mass", "m_earth", "me",
       "pl_m", "mass_e", "planet_masse"]),
    ("temperature",
      ["temperature", "temp", "pl_eqt", "equilibrium_temperature",
       "eq_temp", "teq", "t_eq", "planet_temp", "pl_temp",
       "effective_temperature", "t_eff", "temp_eq", "kelvin"]),
    ("discovery_year",
      ["discovery_year", "disc_year", "year", "discovery_date",
       "found_year", "detected_year", "publication_year",
       "announce_year", "year_discovered", "yr"]),
    ("detection_method",
      ["detection_method", "discovery_method", "method", "discoverymethod",
       "detection_technique", "discovery_technique", "technique",
       "method_detection", "detect_method", "disc_method"]),
    ("data_quality",
      ["data_quality", "quality", "data_flag", "flag", "reliability",
       "confidence", "quality_flag", "grade", "rating", "status",
       "validation_status", "verified"]) ]

/-- `ColumnDetector._fuzzy_match`: the prefix/suffix pattern pairs stripped from
both strings before comparing for equality. -/
def fuzzyPatterns : List (List Char × List Char) :=
  [ ("pl_".data, "planet_".data), ("st_".data, "star_".data), ("st_".data, "stellar_".data),
    ("sy_".data, "system_".data), ("_pc".data, "_parsec".data), ("_e".data, "_earth".data),
    ("_j".data, "_jupiter".data), ("_d".data, "_days".data), ("_yr".data, "_year".data) ]

/-- `ColumnDetector._fuzzy_match(str1, str2)`. -/
def fuzzyMatch (s1 s2 : List Char) : Bool :=
  fuzzyPatterns.any (fun p =>
    removeAll p.2 (removeAll p.1 s1) == removeAll p.2 (removeAll p.1 s2))

/-- The substring-matching branch of `detect_columns` for one synonym:
`possible_name in header_lower or header_lower in possible_name`
together with the 0.6 similarity threshold (`score > 0.6`, i.e. `3/5 < score`). -/
def subCond (pn hl : List Char) : Bool :=
  (isSub pn hl || isSub hl pn) && scoreLt (3, 5) (simPair pn hl)

/-- One pass of the substring-matching inner loop of `detect_columns`: fold over
the synonym list, replacing the provisional best match whenever the similarity
score strictly exceeds both the current best and 0.6. -/
def subStep (namesL : List (List Char)) (csv : String) (hl : List Char)
    (acc : Option String × (Nat × Nat)) : Option String × (Nat × Nat) :=
  namesL.foldl
    (fun acc pn =>
      if (isSub pn hl || isSub hl pn) &&
          (scoreLt acc.2 (simPair pn hl) && scoreLt (3, 5) (simPair pn hl)) then
        (some csv, simPair pn hl)
      else acc)
    acc

/-- One pass of the fuzzy-matching inner loop of `detect_columns`:
a fuzzy hit proposes the header at score 0.8 when 0.8 beats the current best. -/
def fuzzyStep (namesL : List (List Char)) (csv : String) (hl : List Char)
    (acc : Option String × (Nat × Nat)) : Option String × (Nat × Nat) :=
  namesL.foldl
    (fun acc pn =>
      if fuzzyMatch hl pn && scoreLt acc.2 (4, 5) then (some csv, (4, 5))
      else acc)
    acc

/-- The per-field header loop of `detect_columns`. An exact synonym hit stops the
scan with confidence 1.0; otherwise the substring and fuzzy passes update the
provisional best, and at the end the best match is kept when it is truthy
(Python `if best_match` — an empty-string header is falsy). -/
def detectFieldGo (namesL : List (List Char)) :
    List (String × List Char) → Option String × (Nat × Nat) → Option (String × (Nat × Nat))
  | [], acc =>
    match acc.1 with
    | some c => if c = "" then none else some (c, acc.2)
    | none => none
  | (csv, hl) :: rest, acc =>
    if namesL.contains hl then some (csv, (1, 1))
    else detectFieldGo namesL rest (fuzzyStep namesL csv hl (subStep namesL csv hl acc))

/-- `ColumnDetector.detect_columns(headers)` with confidences kept as exact
fraction pairs: an association list `(field, header, confidence)` in the
canonical field order of `COLUMN_MAPPINGS`. -/
def detectColumnsP (headers : List String) : List (String × String × (Nat × Nat)) :=
  let hs := headers.map (fun h => (h, normalizeHeader h))
  COLUMN_MAPPINGS.filterMap (fun fm =>
    (detectFieldGo (fm.2.map (fun n => lowerL n.data)) hs (none, (0, 1))).map
      (fun r => (fm.1, r.1, r.2)))

/-- `ColumnDetector.detect_columns(headers)`: the detected mapping together with
the confidence scores as rational numbers. -/
def detectColumns (headers : List String) : List (String × String × ℚ) :=
  (detectColumnsP headers).map (fun r => (r.1, r.2.1, pairToQ r.2.2))

/-- Required canonical fields (`validate_csv_columns` / `upload_csv_targets`). -/
def requiredFields : List String :=
  ["name", "distance", "star_type", "planet_radius", "orbital_period", "stellar_mass"]

/-- Fields mapped by detection. -/
def mappedFields (headers : List String) : List String :=
  (detectColumnsP headers).map (fun r => r.1)

/-- `missing_required` of `get_mapping_suggestions`. -/
def missingRequired (headers : List String) : List String :=
  requiredFields.filter (fun f => !(mappedFields headers).contains f)

/-- `mapping_quality = len(detected_mapping) / len(ColumnDetector.COLUMN_MAPPINGS)`. -/
def mappingQuality (headers : List String) : ℚ :=
  ((detectColumnsP headers).length : ℚ) / ((COLUMN_MAPPINGS.length : Nat) : ℚ)

/-- `can_proceed = len(missing_required) == 0` in `validate_csv_columns`. -/
def canProceed (headers : List String) : Bool :=
  (missingRequired headers).isEmpty

/-- `validation_status` of `validate_csv_columns`: "valid" or
"missing_required_fields", overridden to "low_confidence" whenever
`mapping_quality < 0.5`. -/
def validationStatus (headers : List String) : String :=
  let base := if canProceed headers then "valid" else "missing_required_fields"
  if mappingQuality headers < 1/2 then "low_confidence" else base

/-! ### ExoplanetTarget and the heuristic scoring engine (hwo_scoring.py lines 26-601) -/

/-- The `ExoplanetTarget` pydantic model. Required fields are always present
(pydantic rejects `None` for them); optional fields are `Option`-valued.
`data_quality` defaults to `"Good"` but may be `None`. -/
structure ExoplanetTarget where
  name : String
  distance : ℚ
  star_type : String
  planet_radius : ℚ
  orbital_period : ℚ
  stellar_mass : ℚ
  planet_mass : Option ℚ
  temperature : Option ℚ
  discovery_year : Option Int
  detection_method : Option String
  data_quality : Option String
deriving DecidableEq

/-- The `ScoringResult` response model (fields needed by the claims). -/
structure ScoringResult where
  target_name : String
  characterization_score : ℚ
  habitability_score : ℚ
  habitability_class : String
  ai_confidence : ℚ
  observation_priority : String
  ml_predictions : List (String × ℚ)
deriving DecidableEq

/-- `HWOScoringEngine._encode_data_quality`: `None`/empty → 0.6, otherwise a
case-insensitive substring lookup. -/
def encodeDataQuality (q : Option String) : ℚ :=
  match q with
  | none => 3/5
  | some s =>
    if s = "" then 3/5
    else
      let ql := lowerL s.data
      if isSub "excellent".data ql then 1
      else if isSub "good".data ql then 4/5
      else if isSub "fair".data ql then 3/5
      else if isSub "limited".data ql || isSub "poor".data ql then 2/5
      else 3/5

/-- Distance factor of `_calculate_characterization_score`
(evaluated only when `distance <= 50`). -/
def distanceScore (d : ℚ) : ℚ :=
  if 5 < d then max 0 (1 - (d - 5)/45) else 1

/-- Star-type factor: `{'G': 1.0, 'K': 0.9, 'F': 0.7, 'M': 0.6, 'A': 0.3}` on the
upper-cased first letter, default 0.5. The empty case is unreachable because the
factor is guarded by the truthiness of `star_type`. -/
def starTypeScore (s : String) : ℚ :=
  match s.data with
  | [] => 0
  | c :: _ =>
    if c.toUpper = 'G' then 1
    else if c.toUpper = 'K' then 9/10
    else if c.toUpper = 'F' then 7/10
    else if c.toUpper = 'M' then 3/5
    else if c.toUpper = 'A' then 3/10
    else 1/2

/-- Planet-size factor: radius converted to Earth radii (`* 11.2`), peak at 1. -/
def radiusScoreOf (planetRadius : ℚ) : ℚ :=
  let re := planetRadius * (56/5)
  if 1/2 ≤ re ∧ re ≤ 2 then 1 - |re - 1|
  else max 0 (3/10 - |re - 1|/3)

/-- Stellar-mass factor: `max(0, 1 - |m - 1|)`. -/
def massScore (m : ℚ) : ℚ := max 0 (1 - |m - 1|)

/-- Python truthiness of the optional `data_quality` string. -/
def dqTruthy (q : Option String) : Bool :=
  match q with
  | none => false
  | some s => s ≠ ""

/-- `HWOScoringEngine._calculate_characterization_score`: the factor
accumulation `score += factor * weight; weight_sum += weight`, each factor
guarded as in the source (`planet_radius` and `stellar_mass` are required
fields, so their guards always hold), followed by
`(score / weight_sum) * 100 if weight_sum > 0 else 50`. -/
def charScore (t : ExoplanetTarget) : ℚ :=
  let s :=
    (if t.distance ≤ 50 then distanceScore t.distance * (3/10) else 0) +
    (if t.star_type ≠ "" then starTypeScore t.star_type * (1/4) else 0) +
    radiusScoreOf t.planet_radius * (1/5) +
    (if dqTruthy t.data_quality then encodeDataQuality t.data_quality * (3/20) else 0) +
    massScore t.stellar_mass * (1/10)
  let w :=
    (if t.distance ≤ 50 then (3 : ℚ)/10 else 0) +
    (if t.star_type ≠ "" then (1 : ℚ)/4 else 0) +
    1/5 +
    (if dqTruthy t.data_quality then (3 : ℚ)/20 else 0) +
    1/10
  if 0 < w then s / w * 100 else 50

/-- The observation-priority thresholds of `score_target` (lines 567-573). -/
def priorityOf (c : ℚ) : String :=
  if 75 ≤ c then "High" else if 50 ≤ c then "Medium" else "Low"

/-- `HWOScoringEngine._calculate_confidence`: data completeness of the six listed
fields (the first five are required, hence always present) combined with a model
certainty defaulting to 0.8, clamped to [0, 100]. -/
def calculateConfidence (t : ExoplanetTarget) (mlPredictions : List (String × ℚ)) : ℚ :=
  let present : List Bool := [true, true, true, true, true, t.data_quality.isSome]
  let completeness : ℚ := (((present.filter (fun b => b)).length : Nat) : ℚ) / 6
  let certainty : ℚ :=
    match mlPredictions.lookup "habitability_probability" with
    | some v => v
    | none => 4/5
  min (max ((completeness * (3/5) + certainty * (2/5)) * 100) 0) 100

/-- The guard of the trained-model branch in `score_target` (line 518):
literally `if False:` in the source. -/
def mlBranchEnabled : Bool := false

/-- CPython `round` rounds half to even; this is the exact rational
round-half-to-even to an integer. (The float operation can differ from the
rational one on representation-dependent exact-half inputs.) -/
def roundHalfEven (q : ℚ) : ℤ :=
  if q - ⌊q⌋ < 1/2 then ⌊q⌋
  else if 1/2 < q - ⌊q⌋ then ⌊q⌋ + 1
  else if ⌊q⌋ % 2 = 0 then ⌊q⌋ else ⌊q⌋ + 1

/-- Python `round(x, 1)`, applied by `score_target` to the scores it stores in
the `ScoringResult` (hwo_scoring.py lines 587-590). -/
def pyRound1 (q : ℚ) : ℚ :=
  ((roundHalfEven (q * 10) : ℤ) : ℚ) / 10

/-- `HWOScoringEngine.score_target`, parametrised by what the (disabled)
trained-model branch would return as `(ml_predictions, habitability_score,
habitability_class)`. The defaults `({}, 50.0, "Unknown")` are set before the
branch and survive it because `mlBranchEnabled` is `false`. The stored
`characterization_score`, `habitability_score` and `ai_confidence` are rounded
to one decimal by `round(x, 1)` (lines 587-590), while `observation_priority`
is computed from the unrounded characterization score (lines 567-573). -/
def scoreTargetWith (mlBranch : ExoplanetTarget → List (String × ℚ) × ℚ × String)
    (t : ExoplanetTarget) : ScoringResult :=
  let cs := charScore t
  let r := if mlBranchEnabled then mlBranch t else ([], 50, "Unknown")
  let conf := calculateConfidence t r.1
  { target_name := t.name
    characterization_score := pyRound1 cs
    habitability_score := pyRound1 r.2.1
    habitability_class := r.2.2
    ai_confidence := pyRound1 conf
    observation_priority := priorityOf cs
    ml_predictions := r.1 }

/-- `score_target` as executed (the disabled branch never runs, so the choice of
its hypothetical result is irrelevant). -/
def scoreTarget (t : ExoplanetTarget) : ScoringResult :=
  scoreTargetWith (fun _ => ([], 50, "Unknown")) t

/-! ### SEPHI (data_science/algorithms/sephi.py) -/

/-- `SEPHICalculator.calculate_temperature_score`. -/
def sephiTempScore (t : ℚ) : ℚ :=
  let raw :=
    if 250 ≤ t ∧ t ≤ 350 then 1 - |t - 288|/100
    else if 150 ≤ t ∧ t ≤ 450 then 1/2 - |t - 288|/200
    else 0
  max 0 (min 1 raw)

/-- `SEPHICalculator.calculate_size_score`. -/
def sephiSizeScore (radius : ℚ) (mass : Option ℚ) : ℚ :=
  let base :=
    if 4/5 ≤ radius ∧ radius ≤ 7/5 then 1 - |radius - 1|/(3/5)
    else if 1/2 ≤ radius ∧ radius ≤ 5/2 then 1/2 - |radius - 1|/2
    else 0
  let adj :=
    match mass with
    | none => base
    | some m =>
      let densityRel := m / radius ^ 3
      if 7/10 ≤ densityRel ∧ densityRel ≤ 3/2 then base * 1 else base * (1/2)
  max 0 (min 1 adj)

/-- `SEPHICalculator.calculate_stellar_score`. -/
def sephiStellarScore (stellarTemp : ℚ) (stellarAge : Option ℚ) : ℚ :=
  let base :=
    if 4500 ≤ stellarTemp ∧ stellarTemp ≤ 6500 then 1 - |stellarTemp - 5778|/2000
    else if 2400 ≤ stellarTemp ∧ stellarTemp ≤ 7500 then 1/2 - |stellarTemp - 5778|/4000
    else 0
  let adj :=
    match stellarAge with
    | none => base
    | some age =>
      if 1 ≤ age ∧ age ≤ 10 then base * 1
      else if 1/2 ≤ age ∧ age ≤ 12 then base * (7/10)
      else base * (3/10)
  max 0 (min 1 adj)

/-- `SEPHICalculator.calculate_orbital_score`. -/
def sephiOrbitalScore (orbitalPeriod : ℚ) : ℚ :=
  let raw :=
    if 200 ≤ orbitalPeriod ∧ orbitalPeriod ≤ 500 then 1 - |orbitalPeriod - 365|/300
    else if 50 ≤ orbitalPeriod ∧ orbitalPeriod ≤ 700 then 1/2 - |orbitalPeriod - 365|/600
    else 0
  max 0 (min 1 raw)

/-- `SEPHICalculator.calculate_sephi_score`: the weighted overall score with
weights temperature 0.35, size 0.25, stellar 0.20, orbital 0.20. -/
def sephiScore (equilibriumTemp radius stellarTemp orbitalPeriod : ℚ)
    (mass stellarAge : Option ℚ) : ℚ :=
  sephiTempScore equilibriumTemp * (7/20) +
  sephiSizeScore radius mass * (1/4) +
  sephiStellarScore stellarTemp stellarAge * (1/5) +
  sephiOrbitalScore orbitalPeriod * (1/5)

/-! ### CDHS (data_science/algorithms/cdhs.py) -/

/-- The `HabitabilityCriteria` dataclass. -/
structure HabitabilityCriteria where
  temp_min : ℚ
  temp_max : ℚ
  temp_optimal : ℚ
  radius_min : ℚ
  radius_max : ℚ
  radius_optimal : ℚ
  flux_min : ℚ
  flux_max : ℚ
  flux_optimal : ℚ
  temp_weight : ℚ
  radius_weight : ℚ
  flux_weight : ℚ
  stability_weight : ℚ
deriving DecidableEq

/-- The dataclass default values of `HabitabilityCriteria`. -/
def defaultCriteria : HabitabilityCriteria :=
  { temp_min := 273, temp_max := 373, temp_optimal := 288
    radius_min := 1/2, radius_max := 3/2, radius_optimal := 1
    flux_min := 1/2, flux_max := 2, flux_optimal := 1
    temp_weight := 7/20, radius_weight := 1/4, flux_weight := 1/5, stability_weight := 1/5 }

/-- `CDHSAlgorithm.calculate_temperature_score`. -/
def calcTemperatureScore (c : HabitabilityCriteria) (temp : ℚ) : ℚ :=
  if temp < c.temp_min ∨ c.temp_max < temp then 0
  else
    max 0 (1 - |temp - c.temp_optimal| /
      max (c.temp_optimal - c.temp_min) (c.temp_max - c.temp_optimal))

/-- `CDHSAlgorithm.calculate_radius_score`. -/
def calcRadiusScore (c : HabitabilityCriteria) (radius : ℚ) : ℚ :=
  if radius < c.radius_min ∨ c.radius_max < radius then 0
  else
    max 0 (1 - |radius - c.radius_optimal| /
      max (c.radius_optimal - c.radius_min) (c.radius_max - c.radius_optimal))

/-- `CDHSAlgorithm.calculate_flux_score`. -/
def calcFluxScore (c : HabitabilityCriteria) (flux : ℚ) : ℚ :=
  if flux < c.flux_min ∨ c.flux_max < flux then 0
  else
    max 0 (1 - |flux - c.flux_optimal| /
      max (c.flux_optimal - c.flux_min) (c.flux_max - c.flux_optimal))

/-- `CDHSAlgorithm.calculate_stability_score`. -/
def calcStabilityScore (eccentricity orbitalPeriod : ℚ) : ℚ :=
  let eccScore := max 0 (1 - eccentricity)
  let periodScore :=
    if 0 < orbitalPeriod then
      if 100 ≤ orbitalPeriod ∧ orbitalPeriod ≤ 1000 then 1
      else max 0 (1 - |orbitalPeriod - 365|/1000)
    else 1
  eccScore * (3/5) + periodScore * (2/5)

/-- `CDHSAlgorithm.calculate_cdhs`: the weighted combination, clamped to [0, 1]. -/
def calcCdhs (c : HabitabilityCriteria)
    (temperature radius stellarFlux eccentricity orbitalPeriod : ℚ) : ℚ :=
  min 1 (max 0
    (calcTemperatureScore c temperature * c.temp_weight +
     calcRadiusScore c radius * c.radius_weight +
     calcFluxScore c stellarFlux * c.flux_weight +
     calcStabilityScore eccentricity orbitalPeriod * c.stability_weight))

/-! ### CSV batch pipeline (hwo_scoring.py `upload_csv_targets`, lines 683-759) -/

/-- The per-row error string `f"Row {index+1}: {str(e)}"`. -/
def rowErrorMsg (idx : Nat) (msg : String) : String :=
  "Row " ++ toString (idx + 1) ++ ": " ++ msg

/-- The row-conversion loop of `upload_csv_targets`. Each row either converts to
an `ExoplanetTarget` or raises; errors are appended keyed by 1-based row number,
and once the error list exceeds 10 entries the loop appends the overflow marker
and `break`s, abandoning all remaining rows. -/
def uploadLoop : List (Except String ExoplanetTarget) → Nat →
    List ExoplanetTarget → List String → List ExoplanetTarget × List String
  | [], _, ts, es => (ts, es)
  | Except.ok t :: rest, idx, ts, es => uploadLoop rest (idx + 1) (ts ++ [t]) es
  | Except.error m :: rest, idx, ts, es =>
    let es2 := es ++ [rowErrorMsg idx m]
    if 10 < es2.length then (ts, es2 ++ ["... and more errors"])
    else uploadLoop rest (idx + 1) ts es2

/-- The conversion phase of `upload_csv_targets` on the per-row outcomes. -/
def convertRows (outcomes : List (Except String ExoplanetTarget)) :
    List ExoplanetTarget × List String :=
  uploadLoop outcomes 0 [] []

/-- `upload_csv_targets` after conversion: if no row converted the whole batch
fails with a single aggregate error summarising the first 5 row errors
(the first 5 conversion errors joined by semicolon-space); otherwise every converted target is
scored. -/
def uploadCsv (outcomes : List (Except String ExoplanetTarget)) :
    Except String (List ScoringResult × List String) :=
  let conv := convertRows outcomes
  if conv.1.isEmpty then
    Except.error ("No valid targets could be processed. Errors: " ++
      String.intercalate "; " (conv.2.take 5))
  else
    Except.ok (conv.1.map scoreTarget, conv.2)

/-- Number of rows whose conversion fails. -/
def countErr (l : List (Except String ExoplanetTarget)) : Nat :=
  (l.filter (fun o => match o with | Except.error _ => true | Except.ok _ => false)).length

/-- Number of rows whose conversion succeeds. -/
def countOk (l : List (Except String ExoplanetTarget)) : Nat :=
  (l.filter (fun o => match o with | Except.ok _ => true | Except.error _ => false)).length

/-- Number of successfully-converting rows occurring strictly before the `n`-th
failing row (all of them, if fewer than `n` rows fail). -/
def oksBeforeNthErr : Nat → List (Except String ExoplanetTarget) → Nat
  | _, [] => 0
  | n, Except.ok _ :: rest => 1 + oksBeforeNthErr n rest
  | n, Except.error _ :: rest => if n ≤ 1 then 0 else oksBeforeNthErr (n - 1) rest

/-! ### Predicates describing the scope of the column-detection claims -/

/-- A normalised header matches a canonical field (given its lowered synonym
list) under one of the three rules of `detect_columns`: exact equality with a
synonym, substring match clearing the 0.6 similarity threshold, or fuzzy match. -/
def fieldHeaderMatch (namesL : List (List Char)) (hl : List Char) : Bool :=
  namesL.contains hl ||
  namesL.any (fun pn => subCond pn hl) ||
  namesL.any (fun pn => fuzzyMatch hl pn)

/-- No header in the list matches any canonical field under any of the three
rules of `detect_columns`. -/
def noMatchHeaders (headers : List String) : Bool :=
  COLUMN_MAPPINGS.all (fun fm =>
    headers.all (fun hd =>
      !(fieldHeaderMatch (fm.2.map (fun n => lowerL n.data)) (normalizeHeader hd))))

/-! ### Observability geometry (backend/app/utils/observability.py)

This pipeline uses `log10` and fractional powers, so it is embedded over `ℝ`. -/

noncomputable section

/-- `AU_METERS = 1.496e11`. -/
def AU_METERS : ℝ := 1.496e11

/-- `PARSEC_METERS = 3.086e16`. -/
def PARSEC_METERS : ℝ := 3.086e16

/-- `RAD_TO_MAS = 206265000.0`. -/
def RAD_TO_MAS : ℝ := 206265000

/-- `WAVELENGTHS_MICRON.get(band, 0.55)`. -/
def wavelengthMicron (band : String) : ℝ :=
  if band = "UV" then 0.25
  else if band = "Visible" then 0.55
  else if band = "NIR" then 1.6
  else 0.55

/-- The `ObservabilityParams` constructor arguments. -/
structure ObservabilityParams where
  telescope_diameter_m : ℝ
  wavelength_band : String
  inner_working_angle_mas : ℝ
  contrast_sensitivity : ℝ

/-- The planet dictionary fields read by `compute_observability`; a `none`
models an absent key. -/
structure PlanetRecord where
  pl_orbsmax : Option ℝ
  pl_orbper : Option ℝ
  sy_dist : Option ℝ
  pl_rade : Option ℝ

/-- `max(0.0, min(1.0, x))`. -/
def clamp01R (x : ℝ) : ℝ := max 0 (min 1 x)

/-- `angular_separation_mas`. -/
def angularSeparationMas (a d : ℝ) : ℝ :=
  if d ≤ 0 ∨ a ≤ 0 then 0
  else (a * AU_METERS) / (d * PARSEC_METERS) * RAD_TO_MAS

/-- `planet_star_contrast_ratio` at the default albedo 0.3. -/
def planetStarContrast (r : ℝ) : ℝ :=
  if r ≤ 0 then 0 else max 1e-12 (0.3 * (r / 109) ^ 2)

/-- `required_telescope_diameter_m` at the default `iwa_factor = 2.0`; the
source returns `float("inf")` for a non-positive separation, modelled as
`none`. -/
def requiredTelescopeDiameterM (sep : ℝ) (band : String) : Option ℝ :=
  if sep ≤ 0 then none
  else some (1.22 * (wavelengthMicron band * 1e-6) / (sep / RAD_TO_MAS) * 2)

/-- `spectroscopic_feasibility`. -/
def spectroscopicFeasibility (contrast limit : ℝ) : ℝ :=
  if limit ≤ 0 then 0
  else clamp01R ((Real.logb 10 (limit / max contrast 1e-20) + 1) / 2)

/-- `iwa_check_score`. -/
def iwaCheckScore (sep iwa : ℝ) : ℝ :=
  if iwa ≤ 0 then 0
  else if sep ≤ 0 then 0
  else clamp01R (sep / iwa - 0.5)

/-- The telescope-diameter term of the combined observability score,
`max(0.0, 1.0 - max(0.0, (req_d - D) / max(req_d, 1e-6)))`. In the
infinite-required-diameter case the Python expression evaluates through a NaN
which the CPython two-argument `max` collapses to its first argument `0.0`, so
the term is `1.0`. -/
def diameterTerm (reqd : Option ℝ) (telescope : ℝ) : ℝ :=
  match reqd with
  | none => 1
  | some r => max 0 (1 - max 0 ((r - telescope) / max r 1e-6))

/-- The fallback semi-major axis
`planet.get("pl_orbsmax") or planet.get("pl_orbper", 365.0) ** (2/3)`:
Python `or` falls through on a missing or zero (falsy) `pl_orbsmax`. -/
def semiMajorAxisOf (p : PlanetRecord) : ℝ :=
  let fallback := Real.rpow (match p.pl_orbper with | some op => op | none => 365) (2/3)
  match p.pl_orbsmax with
  | some v => if v = 0 then fallback else v
  | none => fallback

/-- The fields of the dictionary returned by `compute_observability`. -/
structure ObservabilityResult where
  separation_mas : ℝ
  contrast_ratio : ℝ
  required_diameter_m : Option ℝ
  spectroscopic_score : ℝ
  iwa_score : ℝ
  observability_score : ℝ

/-- `compute_observability(planet, params)`. -/
def computeObservability (p : PlanetRecord) (params : ObservabilityParams) :
    ObservabilityResult :=
  let aAu := semiMajorAxisOf p
  let distPc := match p.sy_dist with | some v => v | none => 10
  let radiusRe := match p.pl_rade with | some v => v | none => 1
  let sep := angularSeparationMas aAu distPc
  let contrast := planetStarContrast radiusRe
  let reqd := requiredTelescopeDiameterM sep params.wavelength_band
  let specScore := spectroscopicFeasibility contrast params.contrast_sensitivity
  let iwaScore := iwaCheckScore sep params.inner_working_angle_mas
  let combined := 0.4 * iwaScore + 0.4 * specScore +
    0.2 * diameterTerm reqd params.telescope_diameter_m
  { separation_mas := sep
    contrast_ratio := contrast
    required_diameter_m := reqd
    spectroscopic_score := specScore
    iwa_score := iwaScore
    observability_score := clamp01R combined }

end

/-! ### Concrete inputs used by the counterexamples and witnesses -/

/-- The six-header example of the specification. -/
def exampleHeaders : List String :=
  ["pl_name", "sy_dist", "st_spectype", "pl_rade", "pl_orbper", "st_mass"]

/-- A header that matches no canonical field under any rule. -/
def garbageHeaders : List String := ["zzz"]

/-- A concrete converted target used by the batch-pipeline examples. -/
def sampleTarget : ExoplanetTarget :=
  { name := "Target-1", distance := 10, star_type := "G2V", planet_radius := 1/10
    orbital_period := 365, stellar_mass := 1, planet_mass := none, temperature := none
    discovery_year := none, detection_method := none, data_quality := some "Good" }

/-- A batch of 12 rows whose first 11 fail type conversion and whose last row
converts successfully. -/
def elevenErrBatch : List (Except String ExoplanetTarget) :=
  List.replicate 11 (Except.error "could not convert string to float") ++
    [Except.ok sampleTarget]

/-- A single-row batch whose only row fails type conversion. -/
def allFailBatch : List (Except String ExoplanetTarget) :=
  [Except.error "could not convert string to float"]

/-- A target whose unrounded characterization score is exactly 74.97: all five
factors contribute, the star-type, radius, data-quality and stellar-mass factor
scores are all 1, and the distance 8509/200 = 42.545 pc gives a distance factor
of 497/3000. -/
def c4Target : ExoplanetTarget :=
  { name := "Rounding boundary", distance := 8509/200, star_type := "G2V"
    planet_radius := 5/56, orbital_period := 365, stellar_mass := 1
    planet_mass := none, temperature := none, discovery_year := none
    detection_method := none, data_quality := some "Excellent" }

/-! ### Lemmas: batch-pipeline row counting -/

theorem countErr_nil : countErr [] = 0 := rfl

theorem countErr_cons_ok (t : ExoplanetTarget) (l : List (Except String ExoplanetTarget)) :
    countErr (Except.ok t :: l) = countErr l := rfl

theorem countErr_cons_err (m : String) (l : List (Except String ExoplanetTarget)) :
    countErr (Except.error m :: l) = countErr l + 1 := by
  simp [countErr, List.filter_cons]

theorem countOk_cons_ok (t : ExoplanetTarget) (l : List (Except String ExoplanetTarget)) :
    countOk (Except.ok t :: l) = countOk l + 1 := by
  simp [countOk, List.filter_cons]

theorem countOk_cons_err (m : String) (l : List (Except String ExoplanetTarget)) :
    countOk (Except.error m :: l) = countOk l := rfl

/-- While at most 10 errors can still accumulate, the conversion loop processes
every row: converted targets and error entries are appended one-for-one. -/
theorem uploadLoop_length_small :
    ∀ (outcomes : List (Except String ExoplanetTarget)) (idx : Nat)
      (ts : List ExoplanetTarget) (es : List String),
      es.length + countErr outcomes ≤ 10 →
      (uploadLoop outcomes idx ts es).1.length = ts.length + countOk outcomes ∧
      (uploadLoop outcomes idx ts es).2.length = es.length + countErr outcomes := by
  intro outcomes
  induction outcomes with
  | nil => intro idx ts es _; simp [uploadLoop, countOk, countErr]
  | cons o rest ih =>
    intro idx ts es h
    cases o with
    | ok t =>
      rw [countErr_cons_ok] at h
      have h2 := ih (idx + 1) (ts ++ [t]) es h
      simp only [uploadLoop]
      rw [countOk_cons_ok, countErr_cons_ok]
      refine ⟨?_, h2.2⟩
      rw [h2.1]
      simp only [List.length_append, List.length_cons, List.length_nil]
      omega
    | error m =>
      rw [countErr_cons_err] at h
      have hlen : (es ++ [rowErrorMsg idx m]).length = es.length + 1 := by simp
      have hcond : ¬ 10 < (es ++ [rowErrorMsg idx m]).length := by omega
      have h2 := ih (idx + 1) ts (es ++ [rowErrorMsg idx m]) (by omega)
      simp only [uploadLoop]
      rw [if_neg hcond, countOk_cons_err, countErr_cons_err]
      refine ⟨h2.1, ?_⟩
      rw [h2.2, hlen]
      omega

/-- Once the 11th error is reached the conversion loop stops: the error list
ends at exactly 12 entries (11 row errors plus the overflow marker) and the
targets collected are the successes seen before the stopping error. -/
theorem uploadLoop_length_big :
    ∀ (outcomes : List (Except String ExoplanetTarget)) (idx : Nat)
      (ts : List ExoplanetTarget) (es : List String),
      es.length ≤ 10 → 11 ≤ es.length + countErr outcomes →
      (uploadLoop outcomes idx ts es).1.length =
        ts.length + oksBeforeNthErr (11 - es.length) outcomes ∧
      (uploadLoop outcomes idx ts es).2.length = 12 := by
  intro outcomes
  induction outcomes with
  | nil =>
    intro idx ts es h1 h2
    rw [countErr_nil] at h2
    omega
  | cons o rest ih =>
    intro idx ts es h1 h2
    cases o with
    | ok t =>
      rw [countErr_cons_ok] at h2
      have h3 := ih (idx + 1) (ts ++ [t]) es h1 h2
      simp only [uploadLoop, oksBeforeNthErr]
      refine ⟨?_, h3.2⟩
      rw [h3.1]
      simp only [List.length_append, List.length_cons, List.length_nil]
      omega
    | error m =>
      rw [countErr_cons_err] at h2
      have hlen : (es ++ [rowErrorMsg idx m]).length = es.length + 1 := by simp
      by_cases hc : es.length = 10
      · have hcond : 10 < (es ++ [rowErrorMsg idx m]).length := by omega
        simp only [uploadLoop, oksBeforeNthErr]
        rw [if_pos hcond]
        have h11 : 11 - es.length = 1 := by omega
        constructor
        · rw [h11]
          simp
        · simp only [List.length_append, List.length_cons, List.length_nil]
          omega
      · have hcond : ¬ 10 < (es ++ [rowErrorMsg idx m]).length := by omega
        have h3 := ih (idx + 1) ts (es ++ [rowErrorMsg idx m]) (by omega) (by omega)
        simp only [uploadLoop, oksBeforeNthErr]
        rw [if_neg hcond]
        have hn : ¬ (11 - es.length ≤ 1) := by omega
        rw [if_neg hn]
        refine ⟨?_, h3.2⟩
        rw [h3.1, hlen]
        congr 2

/-- If no row converts, the conversion loop adds nothing to the target list. -/
theorem uploadLoop_fst_no_ok :
    ∀ (outcomes : List (Except String ExoplanetTarget)) (idx : Nat)
      (ts : List ExoplanetTarget) (es : List String),
      countOk outcomes = 0 → (uploadLoop outcomes idx ts es).1 = ts := by
  intro outcomes
  induction outcomes with
  | nil => intro idx ts es _; rfl
  | cons o rest ih =>
    intro idx ts es h
    cases o with
    | ok t => rw [countOk_cons_ok] at h; omega
    | error m =>
      rw [countOk_cons_err] at h
      simp only [uploadLoop]
      split
      · rfl
      · exact ih (idx + 1) ts _ h

/-- C1 counterexample: in a 12-row batch whose first 11 rows fail conversion and
whose 12th row is valid (N = 12, K = 11), the claim demands N − K = 1 scored
target and at most 11 error entries; the pipeline instead stops at the 11th
error, scoring 0 targets and emitting 12 error entries. -/
theorem claim_C1_counterexample :
    elevenErrBatch.length = 12 ∧ countErr elevenErrBatch = 11 ∧
    (convertRows elevenErrBatch).1.length = 0 ∧
    (convertRows elevenErrBatch).2.length = 12 :=
  ⟨by decide, by decide, by decide, by decide⟩

/-- C1 (amended): with K failing rows out of N, if K ≤ 10 the output has exactly
N − K converted-and-scored targets and exactly K error entries; if K ≥ 11 the
loop stops at the 11th failing row, the error list has exactly 12 entries (the
first 11 row errors plus the "... and more errors" marker), and the targets are
exactly the successful rows occurring before the 11th failure. -/
theorem claim_C1_amended (outcomes : List (Except String ExoplanetTarget)) :
    (countErr outcomes ≤ 10 ∧
      (convertRows outcomes).1.length = countOk outcomes ∧
      ((convertRows outcomes).1.map scoreTarget).length = countOk outcomes ∧
      (convertRows outcomes).2.length = countErr outcomes) ∨
    (11 ≤ countErr outcomes ∧
      (convertRows outcomes).1.length = oksBeforeNthErr 11 outcomes ∧
      (convertRows outcomes).2.length = 12) := by
  by_cases h : countErr outcomes ≤ 10
  · left
    have h2 := uploadLoop_length_small outcomes 0 [] [] (by simpa using h)
    have e1 : (convertRows outcomes).1.length = countOk outcomes := by
      simpa [convertRows] using h2.1
    exact ⟨h, e1, by simpa using e1, by simpa [convertRows] using h2.2⟩
  · right
    have h1 : 11 ≤ countErr outcomes := by omega
    have h2 := uploadLoop_length_big outcomes 0 [] [] (by simp) (by simpa using h1)
    exact ⟨h1, by simpa [convertRows] using h2.1, by simpa [convertRows] using h2.2⟩

/-- C6: when zero rows convert successfully, the upload fails as a whole with a
single aggregate error summarising (at most) the first 5 per-row conversion
errors, and no target is scored. -/
theorem claim_C6 (outcomes : List (Except String ExoplanetTarget))
    (h : countOk outcomes = 0) :
    uploadCsv outcomes = Except.error
      ("No valid targets could be processed. Errors: " ++
        String.intercalate "; " ((convertRows outcomes).2.take 5)) := by
  have h1 : (convertRows outcomes).1 = [] := uploadLoop_fst_no_ok outcomes 0 [] [] h
  simp only [uploadCsv, h1, List.isEmpty_nil, if_pos]

/-- C6 witness at a concrete one-row batch whose single row fails conversion. -/
theorem claim_C6_witness :
    countOk allFailBatch = 0 ∧
    uploadCsv allFailBatch = Except.error
      ("No valid targets could be processed. Errors: " ++
        String.intercalate "; " ((convertRows allFailBatch).2.take 5)) :=
  ⟨rfl, claim_C6 allFailBatch rfl⟩

/-! ### Lemmas: column detection when no header matches -/

theorem subStep_no_update (namesL : List (List Char)) (csv : String) (hl : List Char)
    (h : ∀ pn ∈ namesL, subCond pn hl = false) :
    subStep namesL csv hl (none, (0, 1)) = (none, (0, 1)) := by
  induction namesL with
  | nil => rfl
  | cons pn rest ih =>
    have hpn := h pn (List.mem_cons_self pn rest)
    simp only [subCond] at hpn
    have hcond : ((isSub pn hl || isSub hl pn) &&
        (scoreLt (0, 1) (simPair pn hl) && scoreLt (3, 5) (simPair pn hl))) = false := by
      cases ha : (isSub pn hl || isSub hl pn) with
      | false => simp
      | true =>
        rw [ha] at hpn
        simp only [Bool.true_and] at hpn
        simp [hpn]
    simp only [subStep, List.foldl_cons, hcond]
    simp only [Bool.false_eq_true, if_false]
    exact ih (fun q hq => h q (List.mem_cons_of_mem pn hq))

theorem fuzzyStep_no_update (namesL : List (List Char)) (csv : String) (hl : List Char)
    (h : ∀ pn ∈ namesL, fuzzyMatch hl pn = false) :
    fuzzyStep namesL csv hl (none, (0, 1)) = (none, (0, 1)) := by
  induction namesL with
  | nil => rfl
  | cons pn rest ih =>
    have hpn := h pn (List.mem_cons_self pn rest)
    simp only [fuzzyStep, List.foldl_cons, hpn]
    simp only [Bool.false_and, Bool.false_eq_true, if_false]
    exact ih (fun q hq => h q (List.mem_cons_of_mem pn hq))

/-- If no header in the scan list matches the field under any of the three
rules, the per-field loop produces no mapping. -/
theorem detectFieldGo_none (namesL : List (List Char)) :
    ∀ hs : List (String × List Char),
      (∀ p ∈ hs, fieldHeaderMatch namesL p.2 = false) →
      detectFieldGo namesL hs (none, (0, 1)) = none := by
  intro hs
  induction hs with
  | nil => intro _; rfl
  | cons p rest ih =>
    intro h
    obtain ⟨csv, hl⟩ := p
    have hp := h ⟨csv, hl⟩ (List.mem_cons_self _ _)
    simp only [fieldHeaderMatch, Bool.or_eq_false_iff, List.any_eq_false] at hp
    obtain ⟨⟨hcontains, hsub⟩, hfuzzy⟩ := hp
    simp only [detectFieldGo, hcontains]
    simp only [Bool.false_eq_true, if_false]
    rw [subStep_no_update namesL csv hl (fun pn hpn => by
          have := hsub pn hpn
          simpa using this),
        fuzzyStep_no_update namesL csv hl (fun pn hpn => by
          have := hfuzzy pn hpn
          simpa using this)]
    exact ih (fun q hq => h q (List.mem_cons_of_mem _ hq))

/-- Unpacking of `noMatchHeaders`: every field/header pair fails the match. -/
theorem noMatchHeaders_spec (headers : List String)
    (h : noMatchHeaders headers = true) :
    ∀ fm ∈ COLUMN_MAPPINGS, ∀ hd ∈ headers,
      fieldHeaderMatch (fm.2.map (fun n => lowerL n.data)) (normalizeHeader hd) = false := by
  intro fm hfm hd hhd
  simp only [noMatchHeaders, List.all_eq_true] at h
  have h1 := h fm hfm hd hhd
  simpa using h1

/-- Detection over headers with no matching header yields the empty mapping. -/
theorem detectColumnsP_no_match (headers : List String)
    (h : noMatchHeaders headers = true) :
    detectColumnsP headers = [] := by
  have hspec := noMatchHeaders_spec headers h
  simp only [detectColumnsP]
  rw [List.filterMap_eq_nil_iff]
  intro fm hfm
  rw [detectFieldGo_none]
  · rfl
  · intro p hp
    rw [List.mem_map] at hp
    obtain ⟨hd, hhd, rfl⟩ := hp
    exact hspec fm hfm hd hhd

/-- C2 counterexample: the header list `["zzz"]` matches no canonical field
under the exact, substring, or fuzzy rules, and column validation returns
`detected_mapping = {}` and `mapping_quality = 0` as the claim states, but
`validation_status` is `"low_confidence"` (the quality override fires), not
`"missing_required_fields"`. -/
theorem claim_C2_counterexample :
    noMatchHeaders garbageHeaders = true ∧
    detectColumns garbageHeaders = [] ∧
    mappingQuality garbageHeaders = 0 ∧
    validationStatus garbageHeaders = "low_confidence" ∧
    validationStatus garbageHeaders ≠ "missing_required_fields" := by
  have hp : detectColumnsP garbageHeaders = [] := by decide
  refine ⟨by decide, ?_, ?_, ?_, ?_⟩
  · simp [detectColumns, hp]
  · simp [mappingQuality, hp]
  · have hq : mappingQuality garbageHeaders = 0 := by simp [mappingQuality, hp]
    simp only [validationStatus, hq]
    norm_num
  · have hq : mappingQuality garbageHeaders = 0 := by simp [mappingQuality, hp]
    simp only [validationStatus, hq]
    rw [if_pos (by norm_num)]
    decide

/-- C2 (amended): for every header list none of whose entries matches any
canonical field under the exact, substring, or fuzzy rules, column validation
returns `detected_mapping = {}` and `mapping_quality = 0`, and
`validation_status = "low_confidence"` (the `mapping_quality < 0.5` override
replaces `"missing_required_fields"`). -/
theorem claim_C2_amended (headers : List String)
    (h : noMatchHeaders headers = true) :
    detectColumns headers = [] ∧ mappingQuality headers = 0 ∧
    validationStatus headers = "low_confidence" := by
  have hp := detectColumnsP_no_match headers h
  have hq : mappingQuality headers = 0 := by simp [mappingQuality, hp]
  refine ⟨by simp [detectColumns, hp], hq, ?_⟩
  simp only [validationStatus, hq]
  norm_num

/-- C2 witness: the amended theorem applied to the concrete no-match header
list `["qqq"]`. -/
theorem claim_C2_witness :
    noMatchHeaders ["qqq"] = true ∧
    (detectColumns ["qqq"] = [] ∧ mappingQuality ["qqq"] = 0 ∧
     validationStatus ["qqq"] = "low_confidence") :=
  ⟨by decide, claim_C2_amended ["qqq"] (by decide)⟩

/-- The full detection result on the six-header example (used by the C3
theorems): the six required fields are mapped exactly at confidence pair (1,1),
and `planet_mass` is additionally mapped to `st_mass` by the fuzzy rule
(`st_mass` with `st_` stripped equals the synonym `mass`) at pair (4,5). -/
theorem detectColumnsP_example :
    detectColumnsP exampleHeaders =
      [("name", "pl_name", (1, 1)), ("distance", "sy_dist", (1, 1)),
       ("star_type", "st_spectype", (1, 1)), ("planet_radius", "pl_rade", (1, 1)),
       ("orbital_period", "pl_orbper", (1, 1)), ("stellar_mass", "st_mass", (1, 1)),
       ("planet_mass", "st_mass", (4, 5))] := by
  decide

/-- C3 counterexample: on the headers
`["pl_name","sy_dist","st_spectype","pl_rade","pl_orbper","st_mass"]` the
domain of the detected mapping is not exactly the six required fields: it also
contains `planet_mass` (fuzzily matched to the already-used header `st_mass`). -/
theorem claim_C3_counterexample :
    (detectColumns exampleHeaders).map (fun r => r.1) =
      ["name", "distance", "star_type", "planet_radius", "orbital_period",
       "stellar_mass", "planet_mass"] ∧
    (detectColumns exampleHeaders).map (fun r => r.1) ≠
      ["name", "distance", "star_type", "planet_radius", "orbital_period",
       "stellar_mass"] := by
  have h := detectColumnsP_example
  constructor
  · simp [detectColumns, h]
  · simp [detectColumns, h]

/-- C3 (amended): on the example headers, detection maps each of the six
required fields to its corresponding header at confidence 1.0, additionally maps
`planet_mass` to `st_mass` at confidence 0.8, and validation reports
`can_proceed = true`. -/
theorem claim_C3_amended :
    detectColumns exampleHeaders =
      [("name", "pl_name", 1), ("distance", "sy_dist", 1),
       ("star_type", "st_spectype", 1), ("planet_radius", "pl_rade", 1),
       ("orbital_period", "pl_orbper", 1), ("stellar_mass", "st_mass", 1),
       ("planet_mass", "st_mass", 4/5)] ∧
    canProceed exampleHeaders = true := by
  have h := detectColumnsP_example
  constructor
  · simp [detectColumns, h, pairToQ]
  · simp [canProceed, missingRequired, mappedFields, h, requiredFields]

/-- C7: column detection is a deterministic, idempotent function of the header
list alone — two calls on the same input return identical mappings and identical
confidence scores. -/
theorem claim_C7 (headers : List String) :
    detectColumns headers = detectColumns headers ∧
    (detectColumns headers).map (fun r => r.2.2) =
      (detectColumns headers).map (fun r => r.2.2) :=
  ⟨rfl, rfl⟩

/-! ### Lemmas: characterization-score component bounds -/

theorem distanceScore_bounds (d : ℚ) : 0 ≤ distanceScore d ∧ distanceScore d ≤ 1 := by
  by_cases h : 5 < d
  · simp only [distanceScore, if_pos h]
    have h0 : (0:ℚ) ≤ (d - 5)/45 := by
      apply div_nonneg
      · linarith
      · norm_num
    refine ⟨le_max_left _ _, ?_⟩
    apply max_le
    · norm_num
    · linarith
  · simp only [distanceScore, if_neg h]
    norm_num

theorem starTypeScore_bounds (s : String) : 0 ≤ starTypeScore s ∧ starTypeScore s ≤ 1 := by
  unfold starTypeScore
  split
  · norm_num
  · split_ifs <;> norm_num

theorem radiusScoreOf_bounds (r : ℚ) : 0 ≤ radiusScoreOf r ∧ radiusScoreOf r ≤ 1 := by
  simp only [radiusScoreOf]
  split_ifs with h
  · obtain ⟨h1, h2⟩ := h
    have habs : |r * (56/5) - 1| ≤ 1 := by
      rw [abs_le]
      constructor <;> linarith
    have habs0 : (0:ℚ) ≤ |r * (56/5) - 1| := abs_nonneg _
    constructor <;> linarith
  · have habs0 : (0:ℚ) ≤ |r * (56/5) - 1| := abs_nonneg _
    refine ⟨le_max_left _ _, ?_⟩
    apply max_le
    · norm_num
    · linarith

theorem encodeDataQuality_bounds (q : Option String) :
    0 ≤ encodeDataQuality q ∧ encodeDataQuality q ≤ 1 := by
  rcases q with _ | s
  · norm_num [encodeDataQuality]
  · simp only [encodeDataQuality]
    split_ifs <;> norm_num

theorem massScore_bounds (m : ℚ) : 0 ≤ massScore m ∧ massScore m ≤ 1 := by
  unfold massScore
  refine ⟨le_max_left _ _, ?_⟩
  apply max_le
  · norm_num
  · have := abs_nonneg (m - 1)
    linarith

/-- The final `(score / weight_sum) * 100` stays in [0, 100] whenever the
accumulated score is between 0 and the accumulated weight. -/
theorem ratio_scale_bounds {s w : ℚ} (hw : 0 < w) (h0 : 0 ≤ s) (h1 : s ≤ w) :
    0 ≤ s / w * 100 ∧ s / w * 100 ≤ 100 := by
  have hdiv0 : 0 ≤ s / w := div_nonneg h0 (le_of_lt hw)
  have hdiv1 : s / w ≤ 1 := (div_le_one hw).mpr h1
  constructor
  · positivity
  · nlinarith

set_option maxHeartbeats 1600000 in
/-- C4 core: the characterization score of any valid target lies in [0, 100]. -/
theorem charScore_bounds (t : ExoplanetTarget) : 0 ≤ charScore t ∧ charScore t ≤ 100 := by
  obtain ⟨hd0, hd1⟩ := distanceScore_bounds t.distance
  obtain ⟨hs0, hs1⟩ := starTypeScore_bounds t.star_type
  obtain ⟨hr0, hr1⟩ := radiusScoreOf_bounds t.planet_radius
  obtain ⟨hq0, hq1⟩ := encodeDataQuality_bounds t.data_quality
  obtain ⟨hm0, hm1⟩ := massScore_bounds t.stellar_mass
  have pd0 : 0 ≤ distanceScore t.distance * (3/10) := by nlinarith
  have pd1 : distanceScore t.distance * (3/10) ≤ 3/10 := by nlinarith
  have ps0 : 0 ≤ starTypeScore t.star_type * (1/4) := by nlinarith
  have ps1 : starTypeScore t.star_type * (1/4) ≤ 1/4 := by nlinarith
  have pr0 : 0 ≤ radiusScoreOf t.planet_radius * (1/5) := by nlinarith
  have pr1 : radiusScoreOf t.planet_radius * (1/5) ≤ 1/5 := by nlinarith
  have pq0 : 0 ≤ encodeDataQuality t.data_quality * (3/20) := by nlinarith
  have pq1 : encodeDataQuality t.data_quality * (3/20) ≤ 3/20 := by nlinarith
  have pm0 : 0 ≤ massScore t.stellar_mass * (1/10) := by nlinarith
  have pm1 : massScore t.stellar_mass * (1/10) ≤ 1/10 := by nlinarith
  have hw : 0 < (if t.distance ≤ 50 then (3 : ℚ)/10 else 0) +
      (if t.star_type ≠ "" then (1 : ℚ)/4 else 0) + 1/5 +
      (if dqTruthy t.data_quality then (3 : ℚ)/20 else 0) + 1/10 := by
    split_ifs <;> norm_num
  have hnum0 : 0 ≤ (if t.distance ≤ 50 then distanceScore t.distance * (3/10) else 0) +
      (if t.star_type ≠ "" then starTypeScore t.star_type * (1/4) else 0) +
      radiusScoreOf t.planet_radius * (1/5) +
      (if dqTruthy t.data_quality then encodeDataQuality t.data_quality * (3/20) else 0) +
      massScore t.stellar_mass * (1/10) := by
    split_ifs <;> linarith
  have hnum1 : (if t.distance ≤ 50 then distanceScore t.distance * (3/10) else 0) +
      (if t.star_type ≠ "" then starTypeScore t.star_type * (1/4) else 0) +
      radiusScoreOf t.planet_radius * (1/5) +
      (if dqTruthy t.data_quality then encodeDataQuality t.data_quality * (3/20) else 0) +
      massScore t.stellar_mass * (1/10) ≤
      (if t.distance ≤ 50 then (3 : ℚ)/10 else 0) +
      (if t.star_type ≠ "" then (1 : ℚ)/4 else 0) + 1/5 +
      (if dqTruthy t.data_quality then (3 : ℚ)/20 else 0) + 1/10 := by
    split_ifs <;> linarith
  simp only [charScore]
  rw [if_pos hw]
  exact ratio_scale_bounds hw hnum0 hnum1

/-- Rounding half to even stays within any integer bounds that contain the
input. -/
theorem roundHalfEven_bounds (q : ℚ) (a b : ℤ) (h1 : (a : ℚ) ≤ q)
    (h2 : q ≤ (b : ℚ)) : a ≤ roundHalfEven q ∧ roundHalfEven q ≤ b := by
  have hal : a ≤ ⌊q⌋ := Int.le_floor.mpr h1
  have hbl : ⌊q⌋ ≤ b := by
    have hfl := Int.floor_le_floor h2
    rwa [Int.floor_intCast] at hfl
  have hplus : ¬ (q - ⌊q⌋ < 1/2) → ⌊q⌋ + 1 ≤ b := by
    intro hc
    push_neg at hc
    have hlt : ((⌊q⌋ : ℤ) : ℚ) < q := by linarith
    rcases lt_or_eq_of_le hbl with hh | hh
    · omega
    · exfalso
      have hcast : ((⌊q⌋ : ℤ) : ℚ) = (b : ℚ) := by exact_mod_cast hh
      linarith
  unfold roundHalfEven
  split_ifs with hc1 hc2 hc3
  · exact ⟨hal, hbl⟩
  · exact ⟨by omega, hplus hc1⟩
  · exact ⟨hal, hbl⟩
  · exact ⟨by omega, hplus hc1⟩

/-- `round(x, 1)` keeps a score inside [0, 100]. -/
theorem pyRound1_bounds (q : ℚ) (h0 : 0 ≤ q) (h1 : q ≤ 100) :
    0 ≤ pyRound1 q ∧ pyRound1 q ≤ 100 := by
  have hb := roundHalfEven_bounds (q * 10) 0 1000 (by push_cast; linarith)
    (by push_cast; linarith)
  have hc0 : (0 : ℚ) ≤ ((roundHalfEven (q * 10) : ℤ) : ℚ) := by exact_mod_cast hb.1
  have hc1 : ((roundHalfEven (q * 10) : ℤ) : ℚ) ≤ 1000 := by exact_mod_cast hb.2
  unfold pyRound1
  constructor <;> linarith

/-- `round(50.0, 1) = 50.0`: the habitability default survives rounding. -/
theorem pyRound1_fifty : pyRound1 (50 : ℚ) = 50 := by
  have hfl : ⌊(50 : ℚ) * 10⌋ = 500 := by
    rw [Int.floor_eq_iff]
    constructor
    · push_cast
      norm_num
    · push_cast
      norm_num
  unfold pyRound1 roundHalfEven
  rw [hfl, if_pos (by push_cast; norm_num)]
  push_cast
  norm_num

/-- `round(74.97, 1) = 75.0`: the first decimal rounds up across the 75-point
priority threshold. -/
theorem pyRound1_boundary : pyRound1 ((7497 : ℚ)/100) = 75 := by
  have hfl : ⌊(7497 : ℚ)/100 * 10⌋ = 749 := by
    rw [Int.floor_eq_iff]
    constructor
    · push_cast
      norm_num
    · push_cast
      norm_num
  unfold pyRound1 roundHalfEven
  rw [hfl, if_neg (by push_cast; norm_num), if_pos (by push_cast; norm_num)]
  push_cast
  norm_num

/-- The unrounded characterization score of `c4Target` is exactly 74.97. -/
theorem charScore_c4Target : charScore c4Target = 7497/100 := by
  have hds : distanceScore ((8509 : ℚ)/200) = 497/3000 := by
    rw [distanceScore, if_pos (by norm_num : (5 : ℚ) < 8509/200)]
    rw [max_eq_right (by norm_num : (0 : ℚ) ≤ 1 - ((8509 : ℚ)/200 - 5)/45)]
    norm_num
  have hrs : radiusScoreOf ((5 : ℚ)/56) = 1 := by
    simp only [radiusScoreOf]
    rw [if_pos (by norm_num)]
    norm_num
  have hss : starTypeScore "G2V" = 1 := rfl
  have hdq : encodeDataQuality (some "Excellent") = 1 := rfl
  have hms : massScore 1 = 1 := by
    unfold massScore
    rw [show (1 : ℚ) - |1 - 1| = 1 by norm_num]
    exact max_eq_right (by norm_num)
  have hdqt : dqTruthy (some "Excellent") = true := rfl
  have hne : ("G2V" : String) ≠ "" := by decide
  simp only [charScore, c4Target]
  norm_num [hds, hrs, hss, hdq, hms, hdqt, hne]

/-- C4 counterexample: the unrounded characterization score of `c4Target` is
74.97, so the result stores `characterization_score = 75.0` (rounded at line
587) while the stored priority — computed from the unrounded 74.97 at lines
567-573 — is "Medium". The stored score is ≥ 75 yet the priority is not
"High", so the observation priority is not the (75, 50)-threshold function of
the stored characterization score. -/
theorem claim_C4_counterexample :
    (scoreTarget c4Target).characterization_score = 75 ∧
    (scoreTarget c4Target).observation_priority = "Medium" ∧
    priorityOf ((scoreTarget c4Target).characterization_score) = "High" := by
  refine ⟨?_, ?_, ?_⟩
  · show pyRound1 (charScore c4Target) = 75
    rw [charScore_c4Target]
    exact pyRound1_boundary
  · show priorityOf (charScore c4Target) = "Medium"
    rw [charScore_c4Target]
    unfold priorityOf
    rw [if_neg (by norm_num), if_pos (by norm_num)]
  · show priorityOf (pyRound1 (charScore c4Target)) = "High"
    rw [charScore_c4Target, pyRound1_boundary]
    unfold priorityOf
    rw [if_pos (by norm_num)]

/-- C4 (amended): for every valid target the stored characterization score
(rounded to one decimal) and the unrounded characterization score both lie in
[0, 100] (the weight sum is always positive for a valid target, so the 50
default in `charScore` is the unreachable fallback), and the observation
priority is the (75, 50)-threshold function of the unrounded characterization
score computed at lines 567-573 — not, in general, of the rounded score stored
in the result. -/
theorem claim_C4 (t : ExoplanetTarget) :
    (scoreTarget t).characterization_score ∈ Set.Icc (0 : ℚ) 100 ∧
    charScore t ∈ Set.Icc (0 : ℚ) 100 ∧
    (scoreTarget t).observation_priority = priorityOf (charScore t) := by
  have hb := charScore_bounds t
  refine ⟨?_, Set.mem_Icc.mpr hb, rfl⟩
  rw [Set.mem_Icc]
  exact pyRound1_bounds (charScore t) hb.1 hb.2

/-- C5: with radius 1 Earth radius, equilibrium temperature 288 K, stellar
temperature 5778 K, orbital period 365 days and eccentricity 0 (the CDHS flux
argument being the Earth-Sun stellar flux 1.0 this scenario describes), both the
SEPHI composite and the CDHS composite are within 0.05 of 1.0 — both are in fact
exactly 1. -/
theorem claim_C5 :
    |sephiScore 288 1 5778 365 none none - 1| ≤ 1/20 ∧
    |calcCdhs defaultCriteria 288 1 1 0 365 - 1| ≤ 1/20 := by
  have h1 : sephiScore 288 1 5778 365 none none = 1 := by
    norm_num [sephiScore, sephiTempScore, sephiSizeScore, sephiStellarScore,
      sephiOrbitalScore]
  have h2 : calcCdhs defaultCriteria 288 1 1 0 365 = 1 := by
    norm_num [calcCdhs, defaultCriteria, calcTemperatureScore, calcRadiusScore,
      calcFluxScore, calcStabilityScore]
  rw [h1, h2]
  norm_num

/-- C8: whatever the disabled trained-model branch would compute, every
successful `score_target` result carries the heuristic-only defaults:
habitability_score 50.0, habitability_class "Unknown", and empty ml_predictions
(the branch is guarded by the constant-false `mlBranchEnabled`). -/
theorem claim_C8 (mlBranch : ExoplanetTarget → List (String × ℚ) × ℚ × String)
    (t : ExoplanetTarget) :
    (scoreTargetWith mlBranch t).habitability_score = 50 ∧
    (scoreTargetWith mlBranch t).habitability_class = "Unknown" ∧
    (scoreTargetWith mlBranch t).ml_predictions = [] := by
  refine ⟨?_, rfl, rfl⟩
  show pyRound1 50 = 50
  exact pyRound1_fifty

/-! ### Lemmas: observability score clamping -/

theorem clamp01R_mem (x : ℝ) : clamp01R x ∈ Set.Icc (0 : ℝ) 1 := by
  rw [Set.mem_Icc]
  exact ⟨le_max_left _ _, max_le (by norm_num) (min_le_left _ _)⟩

theorem spectroscopicFeasibility_mem (contrast limit : ℝ) :
    spectroscopicFeasibility contrast limit ∈ Set.Icc (0 : ℝ) 1 := by
  unfold spectroscopicFeasibility
  split_ifs
  · rw [Set.mem_Icc]
    norm_num
  · exact clamp01R_mem _

theorem iwaCheckScore_mem (sep iwa : ℝ) :
    iwaCheckScore sep iwa ∈ Set.Icc (0 : ℝ) 1 := by
  unfold iwaCheckScore
  split_ifs
  · rw [Set.mem_Icc]
    norm_num
  · rw [Set.mem_Icc]
    norm_num
  · exact clamp01R_mem _

/-- C9: for every planet record and every parameter set, the spectroscopic,
inner-working-angle, and combined observability scores returned by
`compute_observability` all lie in [0, 1], including on degenerate inputs for
which the guard branches return 0. -/
theorem claim_C9 (p : PlanetRecord) (params : ObservabilityParams) :
    (computeObservability p params).spectroscopic_score ∈ Set.Icc (0 : ℝ) 1 ∧
    (computeObservability p params).iwa_score ∈ Set.Icc (0 : ℝ) 1 ∧
    (computeObservability p params).observability_score ∈ Set.Icc (0 : ℝ) 1 :=
  ⟨spectroscopicFeasibility_mem _ _, iwaCheckScore_mem _ _, clamp01R_mem _⟩

/-- C10: the CDHS temperature component is exactly 0 outside the closed interval
[273, 373] K, equals `1 - |t - 288| / 85` inside it (the `max(0, ...)` clamp is
inactive there since `|t - 288| ≤ 85` on the interval), and always lies in
[0, 1]. -/
theorem claim_C10 (t : ℚ) :
    ((t < 273 ∨ 373 < t) → calcTemperatureScore defaultCriteria t = 0) ∧
    (273 ≤ t → t ≤ 373 → calcTemperatureScore defaultCriteria t = 1 - |t - 288| / 85) ∧
    calcTemperatureScore defaultCriteria t ∈ Set.Icc (0 : ℚ) 1 := by
  have hmax : max ((288 : ℚ) - 273) (373 - 288) = 85 := by norm_num
  refine ⟨?_, ?_, ?_⟩
  · intro h
    simp only [calcTemperatureScore, defaultCriteria]
    rw [if_pos h]
  · intro h1 h2
    have habs : |t - 288| ≤ 85 := by
      rw [abs_le]
      constructor <;> linarith
    have hnn : 0 ≤ 1 - |t - 288| / 85 := by
      have : |t - 288| / 85 ≤ 1 := by
        rw [div_le_one (by norm_num : (0:ℚ) < 85)]
        exact habs
      linarith
    simp only [calcTemperatureScore, defaultCriteria]
    rw [if_neg (by push_neg; constructor <;> linarith), hmax, max_eq_right hnn]
  · simp only [calcTemperatureScore, defaultCriteria, Set.mem_Icc]
    split_ifs with h
    · norm_num
    · rw [hmax]
      have habs0 : (0:ℚ) ≤ |t - 288| / 85 := by positivity
      refine ⟨le_max_left _ _, ?_⟩
      apply max_le
      · norm_num
      · linarith

/-- C10 witness: the zero branch at 400 K (outside [273, 373]) and the linear
branch at 300 K (inside), both obtained from the C10 theorem. -/
theorem claim_C10_witness :
    calcTemperatureScore defaultCriteria 400 = 0 ∧
    calcTemperatureScore defaultCriteria 300 = 1 - |(300 : ℚ) - 288| / 85 :=
  ⟨(claim_C10 400).1 (Or.inr (by norm_num)),
   (claim_C10 300).2.1 (by norm_num) (by norm_num)⟩
